import Mathlib

/-!
Verification development for the customer-service demo backend
(`src/backend/src/agent.js`, `src/backend/src/simpleAgent.js`,
`src/backend/src/server.js`).

The three-stage pipeline (classify intent, retrieve context, generate
reply) is shallowly embedded here.  External collaborators — the hosted
LLM, the embedding provider, the Pinecone knowledge store, and the
handit.ai observability SDK (`fetchOptimizedPrompt`, `trackNode`) — are
modelled as components of an `Env` record: deterministic stubs whose
behaviour the theorems quantify over.  The LLM call together with the
JavaScript-side `JSON.parse` of its text content is modelled as an
oracle returning `Option` of the already-parsed shape (`none` = the
content was not parseable as JSON), since the raw text and the JS JSON
parser are outside the repository.  Everything after that point —
structural validation, fallback logic, error propagation, the order of
stage invocations — is translated directly from the source.

Each stage additionally returns the list of external calls it performed
(`Event`s), so that temporal claims ("no generate call occurs after a
classify failure") are statable.
-/

namespace CustomerService

/-- Parsed JSON shape the classify stage expects from the model:
`{ userMessage, intent, confidence }` (agent.js lines 86-91).
A field that is absent in the parsed JSON behaves, under the JS
truthiness test at agent.js line 128, exactly like the falsy values
`""` / `0`, which this typed model uses to represent it. -/
structure ClassifyJson where
  userMessage : String
  intent : String
  confidence : Rat
deriving Repr, DecidableEq

/-- Metadata stored with each Pinecone match; the code reads
`match.metadata.text` (agent.js line 189). -/
structure Meta where
  text : String
deriving Repr, DecidableEq

/-- One ranked match returned by the Pinecone `namespace.query` call:
a relevance score and the metadata record. -/
structure StoreMatch where
  score : Rat
  metadata : Meta
deriving Repr, DecidableEq

/-- One formatted search result: `{ pageContent, metadata }`
(agent.js lines 188-191). -/
structure SearchResultItem where
  pageContent : String
  metadata : Meta
deriving Repr, DecidableEq

/-- The retrieve stage's output `searchResults`:
`{ results, count, intent }` (agent.js lines 187-194). -/
structure SearchResults where
  results : List SearchResultItem
  count : Nat
  intent : ClassifyJson
deriving Repr, DecidableEq

/-- Parsed JSON the generate stage obtains from `JSON.parse` (agent.js
line 278).  The code performs no structural validation here, so the
`response` field may be absent (`none`) or any string, including `""`. -/
structure GenJson where
  response : Option String
deriving Repr, DecidableEq

/-- One chat message `{ role, content }` as passed to `llm.invoke`
(agent.js lines 106-115, 262-271). -/
structure Msg where
  role : String
  content : String
deriving Repr, DecidableEq

/-- The final value of a successful `processCustomerRequest`:
`{ response, intent }` (agent.js lines 340-343). -/
structure AgentResult where
  response : GenJson
  intent : ClassifyJson
deriving Repr, DecidableEq

/-- The spec's error taxonomy (spec section 7).  The JS errors are
untyped `Error` values; this model classifies each throw site by its
source: model output that fails to parse or validate
(`malformedModelOutput`), a failed embedding/vector-store call
(`storeUnavailable`), and a failed handit-SDK call — `trackNode`,
`fetchOptimizedPrompt`, tracing (`observabilityReportFailed`). -/
inductive AgentError
  | malformedModelOutput
  | storeUnavailable
  | observabilityReportFailed
deriving Repr, DecidableEq

/-- Outcome of the external `fetchOptimizedPrompt` SDK call:
it can reject (`err`), resolve with `null`/`undefined` (`absent`),
or resolve with an override prompt (`found`). -/
inductive FetchResult
  | err
  | absent
  | found (p : String)
deriving Repr, DecidableEq

/-- External calls a pipeline run performs, recorded in order. -/
inductive Event
  | fetchPromptCall (modelId : String)
  | llmCall (nodeName : String)
  | trackNodeCall (nodeName : String)
  | embedCall (text : String)
  | queryCall (vector : List Rat) (topK : Nat)
deriving Repr, DecidableEq

/-- The deterministic stub environment: all external collaborators of
one pipeline run.  `trackOk` says whether handit-SDK reporting calls
(`trackNode`, tracing) succeed; `llmClassify` / `llmGenerate` give the
parsed JSON of the model content or `none` when it does not parse;
`embedQuery` / `query` give the external store's answers or `none` when
the call throws.  Scope note: the LLM oracle models only the
content-parse outcome of a resolved `llm.invoke`; a *rejecting*
`llm.invoke` (provider/transport failure), which agent.js lines
157-160 and 292-304 rethrow to the caller as-is — an error outside the
three kinds of `AgentError` — is not represented here, so no theorem
below asserts that the three kinds exhaust the program's failures. -/
structure Env where
  fetchPrompt : String → FetchResult
  llmClassify : List Msg → Option ClassifyJson
  llmGenerate : List Msg → Option GenJson
  embedQuery : String → Option (List Rat)
  query : List Rat → Nat → Option (List StoreMatch)
  trackOk : Bool
  handitApiKeyConfigured : Bool

/-- Decidable equality for `Except`, so concrete pipeline outcomes can
be checked by evaluation. -/
instance {ε α : Type} [DecidableEq ε] [DecidableEq α] :
    DecidableEq (Except ε α) := fun x y =>
  match x, y with
  | .ok a, .ok b => decidable_of_iff (a = b) (by simp)
  | .error a, .error b => decidable_of_iff (a = b) (by simp)
  | .ok _, .error _ => isFalse (by simp)
  | .error _, .ok _ => isFalse (by simp)

/-- The four categories the classify prompt offers (agent.js lines
76-80 and spec section 3). -/
def intentCategories : List String :=
  ["support_request", "billing_inquiry", "product_question", "complaint"]

/-- The hardcoded classify prompt template (agent.js lines 75-92), a JS
template literal interpolating the user message.  Literal braces of the
JSON example are written escaped. -/
def classifyPrompt (userMessage : String) : String :=
  "\n        Classify this customer message into categories:\n        - support_request\n        - billing_inquiry  \n        - product_question\n        - complaint\n        \n        IMPORTANT: You must respond ONLY with a valid JSON object, nothing else.\n\n        Customer Message: " ++
  userMessage ++
  "\n        \n        Return JSON:\n        \x7b\n            \"userMessage\": \"" ++
  userMessage ++
  "\",\n            \"intent\": \"category\",\n            \"confidence\": 0.95\n        \x7d\n        "

/-- Models the JS builtin `JSON.stringify` on one formatted search
result (exact whitespace of the builtin is not reproduced; no theorem
depends on it — the string only feeds into the generate prompt). -/
def jsonStringifyItem (r : SearchResultItem) : String :=
  "\x7b \"pageContent\": \"" ++ r.pageContent ++ "\", \"metadata\": \x7b \"text\": \"" ++
    r.metadata.text ++ "\" \x7d \x7d"

/-- Models `JSON.stringify(context.results, null, 2)` (agent.js line 240). -/
def jsonStringifyResults (rs : List SearchResultItem) : String :=
  "[" ++ String.intercalate ", " (rs.map jsonStringifyItem) ++ "]"

/-- The hardcoded generate prompt template (agent.js lines 235-248). -/
def generatePrompt (context : SearchResults) : String :=
  "\n        Generate a customer service response.\n        \n        Question: " ++
  context.intent.userMessage ++
  "\n        Intent: " ++
  context.intent.intent ++
  "\n        Knowledge: " ++
  jsonStringifyResults context.results ++
  "\n        \n        Use this information to help the customer.\n        \n        Response format:\n        \x7b\n            \"response\": \"helpful response here\"\n        \x7d\n        "

/-- The message array both stages hand to `llm.invoke`: a system
message carrying the chosen prompt and a user message
`Customer Message: <text>` (agent.js lines 106-115 and 262-271;
identically in simpleAgent.js lines 95-104 and 203-212, with the
default prompt in place of `bestPrompt`). -/
def stageMessages (bestPrompt userMessage : String) : List Msg :=
  [{ role := "system", content := bestPrompt },
   { role := "user", content := "Customer Message: " ++ userMessage }]

/-- The prompt-resolution logic both instrumented stages share
(agent.js lines 96-103 and 252-259): `await fetchOptimizedPrompt(...)`
followed by `optimized !== null && optimized !== undefined ? optimized
: prompt`.  `none` models the awaited SDK call rejecting, in which case
no prompt is produced and the exception escapes the enclosing `try` of
the stage. -/
def resolveStagePrompt (env : Env) (modelId : String) (defaultPrompt : String) : Option String :=
  match env.fetchPrompt modelId with
  | .err => none
  | .absent => some defaultPrompt
  | .found p => some p

/-- The JS truthiness validation at agent.js lines 128-130 (identical
at simpleAgent.js lines 117-119): `!parsed.intent || !parsed.confidence
|| !parsed.userMessage` throws `Invalid response structure`.  An empty
string and the number `0` are the falsy values of the modelled field
types. -/
def invalidStructure (p : ClassifyJson) : Bool :=
  p.intent == "" || p.confidence == 0 || p.userMessage == ""

/-- Body of the classify stage after prompt resolution (agent.js lines
106-156): invoke the LLM, clean and `JSON.parse` the content (the
oracle `env.llmClassify`), validate truthily, and track.  A parse or
validation failure lands in the `catch (parseError)` block, which
awaits an error-`trackNode` and then throws `Failed to parse LLM
response as JSON`; if that `trackNode` itself rejects, its error
propagates instead.  On the success path the success-`trackNode` is
awaited before returning, and its rejection also lands in the
`catch (parseError)` block. -/
def classifyCore (env : Env) (userMessage bestPrompt : String) :
    Except AgentError ClassifyJson × List Event :=
  match env.llmClassify (stageMessages bestPrompt userMessage) with
  | none =>
      if env.trackOk then
        (.error .malformedModelOutput,
         [.fetchPromptCall "classifyIntent", .llmCall "classifyIntent",
          .trackNodeCall "classifyIntent"])
      else
        (.error .observabilityReportFailed,
         [.fetchPromptCall "classifyIntent", .llmCall "classifyIntent",
          .trackNodeCall "classifyIntent"])
  | some parsedResponse =>
      if invalidStructure parsedResponse then
        if env.trackOk then
          (.error .malformedModelOutput,
           [.fetchPromptCall "classifyIntent", .llmCall "classifyIntent",
            .trackNodeCall "classifyIntent"])
        else
          (.error .observabilityReportFailed,
           [.fetchPromptCall "classifyIntent", .llmCall "classifyIntent",
            .trackNodeCall "classifyIntent"])
      else
        if env.trackOk then
          (.ok parsedResponse,
           [.fetchPromptCall "classifyIntent", .llmCall "classifyIntent",
            .trackNodeCall "classifyIntent"])
        else
          (.error .observabilityReportFailed,
           [.fetchPromptCall "classifyIntent", .llmCall "classifyIntent",
            .trackNodeCall "classifyIntent", .trackNodeCall "classifyIntent"])

/-- `CustomerServiceAgent.classifyIntent` (agent.js lines 73-161):
resolve the prompt through the handit lookup, then run the stage body.
When the lookup rejects, the exception escapes the stage's outer `try`
and is rethrown as-is (agent.js lines 157-160). -/
def classifyIntent (env : Env) (userMessage : String) :
    Except AgentError ClassifyJson × List Event :=
  match resolveStagePrompt env "classifyIntent" (classifyPrompt userMessage) with
  | none => (.error .observabilityReportFailed, [.fetchPromptCall "classifyIntent"])
  | some bestPrompt => classifyCore env userMessage bestPrompt

/-- Conversion of a Pinecone match to a formatted result
(agent.js lines 188-191). -/
def toResultItem (m : StoreMatch) : SearchResultItem :=
  { pageContent := m.metadata.text, metadata := m.metadata }

/-- `CustomerServiceAgent.searchKnowledgeBase` (agent.js lines
174-220): embed `intent.userMessage`, query the store with `topK: 3`,
format the matches in order, set `count` to the number of matches, and
track.  A throwing external call lands in the `catch`, which awaits an
error-`trackNode` and rethrows the original error; a rejecting
`trackNode` propagates its own error instead. -/
def searchKnowledgeBase (env : Env) (intent : ClassifyJson) :
    Except AgentError SearchResults × List Event :=
  match env.embedQuery intent.userMessage with
  | none =>
      if env.trackOk then
        (.error .storeUnavailable,
         [.embedCall intent.userMessage, .trackNodeCall "searchKnowledgeBase"])
      else
        (.error .observabilityReportFailed,
         [.embedCall intent.userMessage, .trackNodeCall "searchKnowledgeBase"])
  | some queryEmbedding =>
      match env.query queryEmbedding 3 with
      | none =>
          if env.trackOk then
            (.error .storeUnavailable,
             [.embedCall intent.userMessage, .queryCall queryEmbedding 3,
              .trackNodeCall "searchKnowledgeBase"])
          else
            (.error .observabilityReportFailed,
             [.embedCall intent.userMessage, .queryCall queryEmbedding 3,
              .trackNodeCall "searchKnowledgeBase"])
      | some ms =>
          if env.trackOk then
            (.ok { results := ms.map toResultItem,
                   count := ms.length,
                   intent := intent },
             [.embedCall intent.userMessage, .queryCall queryEmbedding 3,
              .trackNodeCall "searchKnowledgeBase"])
          else
            (.error .observabilityReportFailed,
             [.embedCall intent.userMessage, .queryCall queryEmbedding 3,
              .trackNodeCall "searchKnowledgeBase", .trackNodeCall "searchKnowledgeBase"])

/-- Body of the generate stage after prompt resolution (agent.js lines
262-304): invoke the LLM, strip control characters and `JSON.parse`
(the oracle `env.llmGenerate`), and track.  There is no structural
validation of the parsed value.  A parse failure goes to the `catch`,
which awaits an error-`trackNode` and rethrows; a rejecting `trackNode`
propagates its own error. -/
def generateCore (env : Env) (context : SearchResults) (bestPrompt : String) :
    Except AgentError GenJson × List Event :=
  match env.llmGenerate (stageMessages bestPrompt context.intent.userMessage) with
  | none =>
      if env.trackOk then
        (.error .malformedModelOutput,
         [.fetchPromptCall "generateResponse", .llmCall "generateResponse",
          .trackNodeCall "generateResponse"])
      else
        (.error .observabilityReportFailed,
         [.fetchPromptCall "generateResponse", .llmCall "generateResponse",
          .trackNodeCall "generateResponse"])
  | some parsedResponse =>
      if env.trackOk then
        (.ok parsedResponse,
         [.fetchPromptCall "generateResponse", .llmCall "generateResponse",
          .trackNodeCall "generateResponse"])
      else
        (.error .observabilityReportFailed,
         [.fetchPromptCall "generateResponse", .llmCall "generateResponse",
          .trackNodeCall "generateResponse", .trackNodeCall "generateResponse"])

/-- `CustomerServiceAgent.generateResponse` (agent.js lines 233-305).
Unlike the classify stage, this stage has a single `try`: a rejecting
prompt lookup lands in the `catch` (agent.js lines 292-304), which
awaits an error-report `trackNode` (line 295, recorded in the trace)
and then rethrows — and if that report itself rejects, its SDK error
propagates instead; either way the surfaced kind is the SDK one. -/
def generateResponse (env : Env) (context : SearchResults) :
    Except AgentError GenJson × List Event :=
  match resolveStagePrompt env "generateResponse" (generatePrompt context) with
  | none =>
      (.error .observabilityReportFailed,
       [.fetchPromptCall "generateResponse", .trackNodeCall "generateResponse"])
  | some bestPrompt => generateCore env context bestPrompt

/-- `CustomerServiceAgent.processCustomerRequest` (agent.js lines
316-358): await an initial `trackNode`, then run classify, retrieve and
generate strictly in sequence, returning `{ response, intent }`.  The
`catch` awaits an error-`trackNode` and rethrows the stage's error
unchanged.  When the SDK rejects (`trackOk = false`) the initial
`trackNode` throw reaches the `catch`, whose own `trackNode` also
rejects, so that SDK error propagates and no stage runs. -/
def processCustomerRequest (env : Env) (userMessage : String) :
    Except AgentError AgentResult × List Event :=
  if env.trackOk then
    match classifyIntent env userMessage with
    | (.error e, tr1) =>
        (.error e,
         .trackNodeCall "processCustomerRequest" ::
           (tr1 ++ [.trackNodeCall "processCustomerRequest"]))
    | (.ok intent, tr1) =>
        match searchKnowledgeBase env intent with
        | (.error e, tr2) =>
            (.error e,
             .trackNodeCall "processCustomerRequest" ::
               (tr1 ++ tr2 ++ [.trackNodeCall "processCustomerRequest"]))
        | (.ok context, tr2) =>
            match generateResponse env context with
            | (.error e, tr3) =>
                (.error e,
                 .trackNodeCall "processCustomerRequest" ::
                   (tr1 ++ tr2 ++ tr3 ++ [.trackNodeCall "processCustomerRequest"]))
            | (.ok response, tr3) =>
                (.ok { response := response, intent := intent },
                 .trackNodeCall "processCustomerRequest" :: (tr1 ++ tr2 ++ tr3))
  else
    (.error .observabilityReportFailed,
     [.trackNodeCall "processCustomerRequest", .trackNodeCall "processCustomerRequest"])

/-- `processRequestVersion2` (agent.js lines 369-426): checks
`HANDIT_API_KEY`, starts a trace, runs the pipeline, ends the trace.
A missing key throws before anything runs (modelled under the
observability kind, as the error originates in the observability SDK
configuration); tracing failures are covered by `trackOk` through the
pipeline's first `trackNode`. -/
def processRequestVersion2 (env : Env) (userMessage : String) :
    Except AgentError AgentResult :=
  if env.handitApiKeyConfigured then (processCustomerRequest env userMessage).fst
  else .error .observabilityReportFailed

/-- `SimpleCustomerServiceAgent.classifyIntent` (simpleAgent.js lines
72-131): identical prompt text, message construction, cleaning, parsing
and truthiness validation, with no handit lookup and no tracking. -/
def simpleClassifyIntent (env : Env) (userMessage : String) :
    Except AgentError ClassifyJson :=
  match env.llmClassify (stageMessages (classifyPrompt userMessage) userMessage) with
  | none => .error .malformedModelOutput
  | some parsedResponse =>
      if invalidStructure parsedResponse then .error .malformedModelOutput
      else .ok parsedResponse

/-- `SimpleCustomerServiceAgent.searchKnowledgeBase` (simpleAgent.js
lines 144-171): identical embed, `topK: 3` query and result formatting,
with no tracking. -/
def simpleSearchKnowledgeBase (env : Env) (intent : ClassifyJson) :
    Except AgentError SearchResults :=
  match env.embedQuery intent.userMessage with
  | none => .error .storeUnavailable
  | some queryEmbedding =>
      match env.query queryEmbedding 3 with
      | none => .error .storeUnavailable
      | some ms =>
          .ok { results := ms.map toResultItem,
                count := ms.length,
                intent := intent }

/-- `SimpleCustomerServiceAgent.generateResponse` (simpleAgent.js lines
184-227): identical prompt and parsing, no validation, no tracking. -/
def simpleGenerateResponse (env : Env) (context : SearchResults) :
    Except AgentError GenJson :=
  match env.llmGenerate
      (stageMessages (generatePrompt context) context.intent.userMessage) with
  | none => .error .malformedModelOutput
  | some parsedResponse => .ok parsedResponse

/-- `SimpleCustomerServiceAgent.processCustomerRequest` (simpleAgent.js
lines 238-261): the same three stages in sequence, `catch` rethrows. -/
def simpleProcessCustomerRequest (env : Env) (userMessage : String) :
    Except AgentError AgentResult :=
  match simpleClassifyIntent env userMessage with
  | .error e => .error e
  | .ok intent =>
      match simpleSearchKnowledgeBase env intent with
      | .error e => .error e
      | .ok context =>
          match simpleGenerateResponse env context with
          | .error e => .error e
          | .ok response => .ok { response := response, intent := intent }

/-- Retrieve-stage external calls: the embedding call, the vector-store
query, and the retrieve stage's `trackNode` reports. -/
def isRetrieveEvent : Event → Bool
  | .embedCall _ => true
  | .queryCall _ _ => true
  | .trackNodeCall n => n == "searchKnowledgeBase"
  | _ => false

/-- Generate-stage external calls: its prompt lookup, its LLM
invocation and its `trackNode` reports. -/
def isGenerateEvent : Event → Bool
  | .fetchPromptCall n => n == "generateResponse"
  | .llmCall n => n == "generateResponse"
  | .trackNodeCall n => n == "generateResponse"
  | _ => false

/-!  Concrete deterministic stub environments used by witnesses and
counterexamples.  `envBase` plays the spec's deterministic-stub
scenario (spec section 8): the model classifies as `product_question`
(confidence a whole-number rational, so concrete runs evaluate inside
the kernel), the store returns the company-info document, the override
lookup finds nothing, and the observability SDK works. -/

/-- A well-formed classification the stub model returns. -/
def goodIntent : ClassifyJson :=
  { userMessage := "What is TechFlow Solutions and when was it founded?",
    intent := "product_question",
    confidence := 1 }

/-- The stub store's single ranked match (the company-info document). -/
def goodMatches : List StoreMatch :=
  [{ score := 1,
     metadata := { text := "TechFlow Solutions was founded in 2015." } }]

/-- A fully well-behaved deterministic stub environment. -/
def envBase : Env :=
  { fetchPrompt := fun _ => .absent,
    llmClassify := fun _ => some goodIntent,
    llmGenerate := fun _ =>
      some { response := some "TechFlow Solutions was founded in 2015." },
    embedQuery := fun _ => some [1, 0],
    query := fun _ _ => some goodMatches,
    trackOk := true,
    handitApiKeyConfigured := true }

/-- `envBase`, except every handit-SDK reporting call rejects. -/
def envTrackFail : Env := { envBase with trackOk := false }

/-- `envBase`, except the `fetchOptimizedPrompt` lookup rejects. -/
def envFetchErr : Env := { envBase with fetchPrompt := fun _ => .err }

/-- A parsed model output whose category is outside the four-value set
and whose confidence is outside the range described by the data
contract, all three fields truthy. -/
def badIntentJson : ClassifyJson :=
  { userMessage := "hi", intent := "weather_forecast", confidence := 2 }

/-- `envBase`, except the classify model yields `badIntentJson`. -/
def envBadCategory : Env :=
  { envBase with llmClassify := fun _ => some badIntentJson }

/-- A parsed model output with confidence exactly 0 (well-formed under
the declared range [0,1]) and non-empty string fields. -/
def zeroConfJson : ClassifyJson :=
  { userMessage := "hi", intent := "support_request", confidence := 0 }

/-- `envBase`, except the classify model yields `zeroConfJson`. -/
def envZeroConf : Env :=
  { envBase with llmClassify := fun _ => some zeroConfJson }

/-- A parsed generate output whose response text is the empty string. -/
def emptyReplyJson : GenJson := { response := some "" }

/-- `envBase`, except the generate model answers with an empty-string
response text. -/
def envEmptyReply : Env :=
  { envBase with llmGenerate := fun _ => some emptyReplyJson }

/-- `envBase`, except the classify model's content is unparseable. -/
def envClassifyGarbage : Env :=
  { envBase with llmClassify := fun _ => none }

/-- `envBase`, except the generate model's content is unparseable. -/
def envGenerateGarbage : Env :=
  { envBase with llmGenerate := fun _ => none }

/-- `envBase`, except the vector-store query throws. -/
def envStoreDown : Env :=
  { envBase with query := fun _ _ => none }

/-!  The HTTP boundary (`src/backend/src/server.js`).  The server does
`import { main } from './agent.js'` (server.js line 14), while agent.js
exports only `processRequestVersion2` (agent.js line 428).  The module
is modelled as its named-export table and the `POST /api/chat` handler
as a function of the resolved binding. -/

/-- The named exports of agent.js (line 428). -/
def agentModuleExports (env : Env) :
    List (String × (String → Except AgentError AgentResult)) :=
  [("processRequestVersion2", processRequestVersion2 env)]

/-- Resolution of a named import against a module's export table. -/
def lookupExport (exports : List (String × (String → Except AgentError AgentResult)))
    (nm : String) : Option (String → Except AgentError AgentResult) :=
  match exports with
  | [] => none
  | (k, f) :: rest => if k == nm then some f else lookupExport rest nm

/-- The binding `main` that server.js line 14 requests from agent.js. -/
def serverMainBinding (env : Env) : Option (String → Except AgentError AgentResult) :=
  lookupExport (agentModuleExports env) "main"

/-- Responses the `POST /api/chat` handler can produce
(server.js lines 40-64). -/
inductive ChatResponse
  | badRequest (errMsg : String)
  | success (data : AgentResult)
  | serverError (errMsg : String)
deriving Repr, DecidableEq

/-- The `POST /api/chat` handler (server.js lines 40-64): a missing or
falsy `message` yields the 400 response; otherwise `await main(message)`
— when the binding is not a function, the call throws and the `catch`
yields the 500 response; otherwise the result is wrapped in the success
payload, and a pipeline error also yields the 500 response. -/
def chatHandler (mainBinding : Option (String → Except AgentError AgentResult))
    (body : Option String) : ChatResponse :=
  match body with
  | none => .badRequest "Message is required"
  | some message =>
      if message == "" then .badRequest "Message is required"
      else
        match mainBinding with
        | none => .serverError "Internal server error"
        | some mainFn =>
            match mainFn message with
            | .ok result => .success result
            | .error _ => .serverError "Internal server error"

/-!  Helper lemmas shared by several claims. -/

/-- Every external call the classify stage records belongs to the
classify stage: none is a retrieve or generate call. -/
theorem classifyCore_trace_clean (env : Env) (msg bp : String) :
    (classifyCore env msg bp).snd.filter isRetrieveEvent = []
    ∧ (classifyCore env msg bp).snd.filter isGenerateEvent = [] := by
  refine ⟨?_, ?_⟩ <;> unfold classifyCore <;> (repeat' split) <;> rfl

/-- Same as `classifyCore_trace_clean`, for the whole stage including
its prompt lookup. -/
theorem classifyIntent_trace_clean (env : Env) (msg : String) :
    (classifyIntent env msg).snd.filter isRetrieveEvent = []
    ∧ (classifyIntent env msg).snd.filter isGenerateEvent = [] := by
  unfold classifyIntent
  split
  · exact ⟨rfl, rfl⟩
  · exact classifyCore_trace_clean env msg _

/-- The retrieve stage records no generate-stage call. -/
theorem searchKnowledgeBase_trace_no_generate (env : Env) (i : ClassifyJson) :
    (searchKnowledgeBase env i).snd.filter isGenerateEvent = [] := by
  unfold searchKnowledgeBase
  repeat' split
  all_goals rfl

/-- The classify stage can only return a parsed intent when its final
`trackNode` succeeded. -/
theorem classifyIntent_ok_trackOk (env : Env) (msg : String) (i : ClassifyJson)
    (h : (classifyIntent env msg).fst = .ok i) : env.trackOk = true := by
  unfold classifyIntent classifyCore at h
  repeat' split at h
  all_goals first
    | assumption
    | exact absurd h (by simp)

/-- Characterisation of the truthiness test: it passes exactly when all
three fields are truthy. -/
theorem invalidStructure_false_iff (p : ClassifyJson) :
    invalidStructure p = false
    ↔ (p.intent ≠ "" ∧ p.confidence ≠ 0 ∧ p.userMessage ≠ "") := by
  simp [invalidStructure, and_assoc]

/-!  Claim C9. -/

/-- Claim C9: server.js imports the named export `main` from agent.js,
but agent.js exports only `processRequestVersion2`; the import resolves
to no binding, so for every request body the enhanced `POST /api/chat`
handler can never produce the `{status: success, data}` response. -/
theorem chat_endpoint_success_unreachable (env : Env) (body : Option String)
    (d : AgentResult) :
    serverMainBinding env = none
    ∧ chatHandler (serverMainBinding env) body ≠ ChatResponse.success d := by
  have hb : serverMainBinding env = none := rfl
  refine ⟨hb, ?_⟩
  rw [hb]
  cases body with
  | none => simp [chatHandler]
  | some m =>
      cases hm : (m == "") <;> simp [chatHandler, hm]

/-!  Claim C10. -/

/-- Claim C10: the classify stage validates its three fields by JS
truthiness, not presence; a model output that parses to JSON with
confidence exactly 0, or with an empty-string userMessage or intent, is
rejected as a parse failure (`Invalid response structure`, surfaced as
the malformed-output kind) even though confidence 0 lies in the
declared range [0,1].  Both the instrumented and the simple agent
behave this way. -/
theorem classify_rejects_falsy_fields (env : Env) (msg : String) (p : ClassifyJson)
    (hf : env.fetchPrompt "classifyIntent" = .absent)
    (ht : env.trackOk = true)
    (hp : env.llmClassify (stageMessages (classifyPrompt msg) msg) = some p)
    (hfalsy : p.confidence = 0 ∨ p.userMessage = "" ∨ p.intent = "") :
    (classifyIntent env msg).fst = .error .malformedModelOutput
    ∧ simpleClassifyIntent env msg = .error .malformedModelOutput := by
  have hinv : invalidStructure p = true := by
    unfold invalidStructure
    rcases hfalsy with h | h | h <;> simp [h]
  constructor
  · simp [classifyIntent, resolveStagePrompt, classifyCore, hf, hp, hinv, ht]
  · simp [simpleClassifyIntent, hp, hinv]

/-- Witness for `classify_rejects_falsy_fields` at a concrete stub:
confidence exactly 0, which lies inside the declared range [0,1],
with non-empty string fields. -/
theorem classify_rejects_falsy_fields_witness :
    envZeroConf.fetchPrompt "classifyIntent" = FetchResult.absent
    ∧ envZeroConf.trackOk = true
    ∧ envZeroConf.llmClassify (stageMessages (classifyPrompt "hi") "hi") = some zeroConfJson
    ∧ zeroConfJson.confidence = 0
    ∧ (0 : Rat) ≤ zeroConfJson.confidence ∧ zeroConfJson.confidence ≤ 1
    ∧ (classifyIntent envZeroConf "hi").fst = .error .malformedModelOutput :=
  ⟨rfl, rfl, rfl, rfl, by decide, by decide,
   (classify_rejects_falsy_fields envZeroConf "hi" zeroConfJson rfl rfl rfl
     (Or.inl rfl)).1⟩

/-!  Claim C6. -/

/-- Claim C6 counterexample: the classify stage returns a parsed model
output whose category `weather_forecast` is outside the four-value set
and whose confidence 2 is outside [0,1] as a valid result, instead of
rejecting it as malformed — the code never checks category membership
or the confidence range. -/
theorem classify_accepts_out_of_set_category :
    (classifyIntent envBadCategory "hi").fst = .ok badIntentJson
    ∧ badIntentJson.intent ∉ intentCategories
    ∧ ¬ badIntentJson.confidence ≤ 1 :=
  ⟨rfl, by decide, by decide⟩

/-- Claim C6 amended: the classify stage accepts a parsed model output
exactly when its three fields are truthy (non-empty strings, non-zero
confidence); membership of `category` in the four-value set and the
[0,1] confidence range are not enforced. -/
theorem classify_validation_truthiness_only (env : Env) (msg : String) (p : ClassifyJson)
    (hf : env.fetchPrompt "classifyIntent" = .absent)
    (ht : env.trackOk = true)
    (hp : env.llmClassify (stageMessages (classifyPrompt msg) msg) = some p) :
    (classifyIntent env msg).fst = .ok p
    ↔ (p.intent ≠ "" ∧ p.confidence ≠ 0 ∧ p.userMessage ≠ "") := by
  cases hinv : invalidStructure p with
  | false =>
      have hL : (classifyIntent env msg).fst = .ok p := by
        simp [classifyIntent, resolveStagePrompt, classifyCore, hf, hp, hinv, ht]
      simp [hL, (invalidStructure_false_iff p).mp hinv]
  | true =>
      have hL : (classifyIntent env msg).fst = .error .malformedModelOutput := by
        simp [classifyIntent, resolveStagePrompt, classifyCore, hf, hp, hinv, ht]
      rw [hL]
      constructor
      · intro h; exact absurd h (by simp)
      · intro hr
        rw [(invalidStructure_false_iff p).mpr hr] at hinv
        exact absurd hinv (by simp)

/-- Witness for `classify_validation_truthiness_only`: the out-of-set,
out-of-range `badIntentJson` is accepted because its fields are truthy. -/
theorem classify_validation_truthiness_only_witness :
    envBadCategory.fetchPrompt "classifyIntent" = FetchResult.absent
    ∧ envBadCategory.trackOk = true
    ∧ envBadCategory.llmClassify (stageMessages (classifyPrompt "hi") "hi") = some badIntentJson
    ∧ (classifyIntent envBadCategory "hi").fst = .ok badIntentJson :=
  ⟨rfl, rfl, rfl,
   (classify_validation_truthiness_only envBadCategory "hi" badIntentJson
     rfl rfl rfl).mpr (by decide)⟩

/-!  Claim C5. -/

/-- A stub environment whose override lookup always finds a prompt. -/
def envOverride : Env :=
  { envBase with fetchPrompt := fun _ => .found "OVERRIDE PROMPT" }

/-- Claim C5 counterexample: when the override lookup itself errors,
the stage does not fall back to the default silently — the error
escapes `classifyIntent` (the trace shows no LLM call was ever made),
refuting the claimed absence-OR-ERROR silent fallback. -/
theorem lookup_error_fails_stage :
    (classifyIntent envFetchErr "hi").fst = .error .observabilityReportFailed
    ∧ (classifyIntent envFetchErr "hi").snd = [Event.fetchPromptCall "classifyIntent"] :=
  ⟨rfl, rfl⟩

/-- Claim C5 amended: the resolver returns the override when the lookup
succeeds with a present value and the hardcoded default when the lookup
returns absent (null/undefined), silently; only a throwing lookup
escapes (see `lookup_error_fails_stage`). -/
theorem resolve_override_or_default (env : Env) (modelId dflt p : String) :
    (env.fetchPrompt modelId = .found p → resolveStagePrompt env modelId dflt = some p)
    ∧ (env.fetchPrompt modelId = .absent → resolveStagePrompt env modelId dflt = some dflt) := by
  constructor <;> intro h <;> simp [resolveStagePrompt, h]

/-- Witness for `resolve_override_or_default`: one concrete lookup that
finds an override and one that finds nothing. -/
theorem resolve_override_or_default_witness :
    resolveStagePrompt envOverride "classifyIntent" "default text" = some "OVERRIDE PROMPT"
    ∧ resolveStagePrompt envBase "classifyIntent" "default text" = some "default text" :=
  ⟨(resolve_override_or_default envOverride "classifyIntent" "default text"
      "OVERRIDE PROMPT").1 rfl,
   (resolve_override_or_default envBase "classifyIntent" "default text" "x").2 rfl⟩

/-!  Claim C4. -/

/-- Claim C4 counterexample: on the same deterministic stubs, with
every stage computation succeeding, a failing `trackNode` makes the
pipeline return an error — the observability failure aborts the run and
is surfaced to the caller — whereas with reporting succeeding the same
input yields a Reply. -/
theorem track_failure_changes_result :
    (processCustomerRequest envTrackFail "hi").fst = .error .observabilityReportFailed
    ∧ (processCustomerRequest envBase "hi").fst
        = .ok { response := { response := some "TechFlow Solutions was founded in 2015." },
                intent := goodIntent } :=
  ⟨rfl, by decide⟩

/-- Claim C4 amended: a rejecting `trackNode` aborts the pipeline at
the orchestrator's initial report: the `catch` re-reports (which also
rejects) and the SDK error propagates to the caller, so a reporting
failure is surfaced rather than swallowed. -/
theorem track_failure_always_aborts (env : Env) (msg : String)
    (h : env.trackOk = false) :
    (processCustomerRequest env msg).fst = .error .observabilityReportFailed := by
  simp [processCustomerRequest, h]

/-- Witness for `track_failure_always_aborts` at the concrete stub. -/
theorem track_failure_always_aborts_witness :
    envTrackFail.trackOk = false
    ∧ (processCustomerRequest envTrackFail "hi").fst = .error .observabilityReportFailed :=
  ⟨rfl, track_failure_always_aborts envTrackFail "hi" rfl⟩

/-!  Claim C1. -/

/-- The orchestrator's own `trackNode` report is not a retrieve call. -/
theorem isRetrieveEvent_trackPCR :
    isRetrieveEvent (Event.trackNodeCall "processCustomerRequest") = false := rfl

/-- The orchestrator's own `trackNode` report is not a generate call. -/
theorem isGenerateEvent_trackPCR :
    isGenerateEvent (Event.trackNodeCall "processCustomerRequest") = false := rfl

/-- Claim C1: the pipeline runs classify, retrieve and generate
strictly in that order, and the first stage failure aborts all
remaining stages: when classify fails, the run's recorded external
calls contain no retrieve and no generate call; when classify succeeds
and retrieve fails, they contain no generate call; and on a fully
successful run the trace is exactly the orchestrator's report followed
by the classify calls, then the retrieve calls, then the generate
calls. -/
theorem pipeline_strict_sequencing (env : Env) (msg : String) :
    (∀ e, (classifyIntent env msg).fst = .error e →
        (processCustomerRequest env msg).snd.filter isRetrieveEvent = []
        ∧ (processCustomerRequest env msg).snd.filter isGenerateEvent = [])
    ∧ (∀ i e, (classifyIntent env msg).fst = .ok i →
        (searchKnowledgeBase env i).fst = .error e →
        (processCustomerRequest env msg).snd.filter isGenerateEvent = [])
    ∧ (∀ i c r, (classifyIntent env msg).fst = .ok i →
        (searchKnowledgeBase env i).fst = .ok c →
        (generateResponse env c).fst = .ok r →
        (processCustomerRequest env msg).snd
          = Event.trackNodeCall "processCustomerRequest"
              :: ((classifyIntent env msg).snd ++ (searchKnowledgeBase env i).snd
                  ++ (generateResponse env c).snd)) := by
  refine ⟨?_, ?_, ?_⟩
  · intro e he
    cases htr : env.trackOk with
    | false =>
        constructor <;>
          simp [processCustomerRequest, htr, isRetrieveEvent_trackPCR,
                isGenerateEvent_trackPCR]
    | true =>
        rcases hcl : classifyIntent env msg with ⟨res1, tr1⟩
        rw [hcl] at he
        simp only [] at he
        subst he
        have h1 := (classifyIntent_trace_clean env msg).1
        have h2 := (classifyIntent_trace_clean env msg).2
        rw [hcl] at h1 h2
        simp only [] at h1 h2
        constructor <;>
          simp [processCustomerRequest, htr, hcl, List.filter_append, h1, h2,
                isRetrieveEvent_trackPCR, isGenerateEvent_trackPCR]
  · intro i e hok hse
    have htr : env.trackOk = true := classifyIntent_ok_trackOk env msg i hok
    rcases hcl : classifyIntent env msg with ⟨res1, tr1⟩
    rw [hcl] at hok
    simp only [] at hok
    subst hok
    rcases hs : searchKnowledgeBase env i with ⟨res2, tr2⟩
    rw [hs] at hse
    simp only [] at hse
    subst hse
    have h2 := (classifyIntent_trace_clean env msg).2
    rw [hcl] at h2
    simp only [] at h2
    have h3 := searchKnowledgeBase_trace_no_generate env i
    rw [hs] at h3
    simp only [] at h3
    simp [processCustomerRequest, htr, hcl, hs, List.filter_append, h2, h3,
          isGenerateEvent_trackPCR]
  · intro i c r hok hsok hgok
    have htr : env.trackOk = true := classifyIntent_ok_trackOk env msg i hok
    rcases hcl : classifyIntent env msg with ⟨res1, tr1⟩
    rw [hcl] at hok
    simp only [] at hok
    subst hok
    rcases hs : searchKnowledgeBase env i with ⟨res2, tr2⟩
    rw [hs] at hsok
    simp only [] at hsok
    subst hsok
    rcases hg : generateResponse env c with ⟨res3, tr3⟩
    rw [hg] at hgok
    simp only [] at hgok
    subst hgok
    simp [processCustomerRequest, htr, hcl, hs, hg]

/-- Witness for `pipeline_strict_sequencing`: with the classify model
returning unparseable content, the run performs no retrieve and no
generate call. -/
theorem pipeline_strict_sequencing_witness :
    (classifyIntent envClassifyGarbage "hi").fst = .error .malformedModelOutput
    ∧ (processCustomerRequest envClassifyGarbage "hi").snd.filter isRetrieveEvent = []
    ∧ (processCustomerRequest envClassifyGarbage "hi").snd.filter isGenerateEvent = [] :=
  ⟨by decide,
   ((pipeline_strict_sequencing envClassifyGarbage "hi").1 .malformedModelOutput
      (by decide)).1,
   ((pipeline_strict_sequencing envClassifyGarbage "hi").1 .malformedModelOutput
      (by decide)).2⟩

/-!  Claim C2. -/

/-- Claim C2 counterexample: with the generate model returning the
well-formed JSON object whose response text is the empty string, the
pipeline returns it as a successful Reply — an outcome that is neither
a Reply with non-empty text nor a failure, refuting the claimed
dichotomy (the generate stage performs no structural or non-emptiness
check on the parsed object). -/
theorem pipeline_returns_empty_text_reply :
    (processCustomerRequest envEmptyReply "hello").fst
      = .ok { response := emptyReplyJson, intent := goodIntent }
    ∧ emptyReplyJson.response = some "" :=
  ⟨by decide, rfl⟩

/-- Claim C2 amended: whenever the full pipeline run returns
successfully, its Reply is exactly the JSON object the generate model
produced — the response text may be the empty string or absent, since
the generate stage performs no structural validation — paired with the
classified intent, and each of the three stages succeeded.  No
exhaustive error taxonomy is asserted: the code rethrows a rejecting
`llm.invoke` provider error to the caller as-is (agent.js lines
157-160 and 292-304), an error outside the three named kinds and
outside this embedding's LLM oracle, which models only content-parse
failure. -/
theorem pipeline_success_shape (env : Env) (msg : String) (r : AgentResult)
    (h : (processCustomerRequest env msg).fst = .ok r) :
    ∃ i c, (classifyIntent env msg).fst = .ok i
      ∧ (searchKnowledgeBase env i).fst = .ok c
      ∧ (generateResponse env c).fst = .ok r.response
      ∧ r.intent = i := by
  cases htr : env.trackOk with
  | false => simp [processCustomerRequest, htr] at h
  | true =>
      rcases hcl : classifyIntent env msg with ⟨res1, tr1⟩
      cases res1 with
      | error e => simp [processCustomerRequest, htr, hcl] at h
      | ok i =>
          rcases hs : searchKnowledgeBase env i with ⟨res2, tr2⟩
          cases res2 with
          | error e => simp [processCustomerRequest, htr, hcl, hs] at h
          | ok c =>
              rcases hg : generateResponse env c with ⟨res3, tr3⟩
              cases res3 with
              | error e => simp [processCustomerRequest, htr, hcl, hs, hg] at h
              | ok g =>
                  have hrun : (processCustomerRequest env msg).fst
                      = .ok { response := g, intent := i } := by
                    simp [processCustomerRequest, htr, hcl, hs, hg]
                  rw [hrun] at h
                  injection h with h2
                  subst h2
                  exact ⟨i, c, by simp [hcl], by simp [hs], by simp [hg], rfl⟩

/-- Witness for `pipeline_success_shape`: the concrete stub run
succeeds and decomposes into its three successful stages. -/
theorem pipeline_success_shape_witness :
    ∃ i c, (classifyIntent envBase "hi").fst = .ok i
      ∧ (searchKnowledgeBase envBase i).fst = .ok c
      ∧ (generateResponse envBase c).fst
          = .ok { response := some "TechFlow Solutions was founded in 2015." }
      ∧ goodIntent = i :=
  pipeline_success_shape envBase "hi"
    { response := { response := some "TechFlow Solutions was founded in 2015." },
      intent := goodIntent } (by decide)

/-!  Claim C7. -/

/-- Claim C7: the retrieve stage embeds the Intent's original source
text (`intent.userMessage`) and queries the store with k = 3; whenever
the store honours the requested k, the resulting context holds at most
3 matches, its `results` list is the image of the store's ranked list
under the per-match formatter — so the store's descending-relevance
order is preserved position by position — and its `count` equals the
number of matches.  The recorded trace exhibits the embed call on the
source text and the query with topK = 3. -/
theorem retrieve_topk_order (env : Env) (i : ClassifyJson) (v : List Rat)
    (ms : List StoreMatch)
    (hemb : env.embedQuery i.userMessage = some v)
    (hq : env.query v 3 = some ms)
    (hk : ms.length ≤ 3)
    (ht : env.trackOk = true) :
    (searchKnowledgeBase env i).fst
        = .ok { results := ms.map toResultItem, count := ms.length, intent := i }
    ∧ ms.length ≤ 3
    ∧ (∀ (j : Nat) (hj : j < ms.length),
        (ms.map toResultItem).get ⟨j, by simpa using hj⟩ = toResultItem (ms.get ⟨j, hj⟩))
    ∧ (searchKnowledgeBase env i).snd
        = [Event.embedCall i.userMessage, Event.queryCall v 3,
           Event.trackNodeCall "searchKnowledgeBase"] := by
  refine ⟨?_, hk, ?_, ?_⟩
  · simp [searchKnowledgeBase, hemb, hq, ht]
  · intro j hj
    simp [List.getElem_map]
  · simp [searchKnowledgeBase, hemb, hq, ht]

/-- Witness for `retrieve_topk_order` at the concrete stub store. -/
theorem retrieve_topk_order_witness :
    envBase.embedQuery goodIntent.userMessage = some [1, 0]
    ∧ envBase.query [1, 0] 3 = some goodMatches
    ∧ goodMatches.length ≤ 3
    ∧ envBase.trackOk = true
    ∧ (searchKnowledgeBase envBase goodIntent).fst
        = .ok { results := goodMatches.map toResultItem,
                count := goodMatches.length, intent := goodIntent } :=
  ⟨rfl, rfl, by decide, rfl,
   (retrieve_topk_order envBase goodIntent [1, 0] goodMatches rfl rfl
      (by decide) rfl).1⟩

/-!  Claim C8. -/

/-- When reporting fails, the classify stage itself surfaces the SDK
error (every path of the stage ends in a rejecting `trackNode`). -/
theorem classifyIntent_trackFail (env : Env) (msg : String)
    (h : env.trackOk = false) :
    (classifyIntent env msg).fst = .error .observabilityReportFailed := by
  unfold classifyIntent classifyCore
  repeat' split
  all_goals simp_all

/-- Claim C8 counterexample: a classify-stage parse failure and a
generate-stage parse failure reach the caller as the very same error
value — no stage name is attached, so the caller cannot distinguish
which stage failed, even though the traces show the first run never
reached the generate stage while the second did. -/
theorem stage_identity_not_attached :
    (processCustomerRequest envClassifyGarbage "hi").fst = .error .malformedModelOutput
    ∧ (processCustomerRequest envGenerateGarbage "hi").fst = .error .malformedModelOutput
    ∧ (processCustomerRequest envClassifyGarbage "hi").snd.filter isGenerateEvent = []
    ∧ (processCustomerRequest envGenerateGarbage "hi").snd.filter isGenerateEvent ≠ [] :=
  ⟨by decide, by decide, by decide, by decide⟩

/-- Claim C8 amended: the orchestrator rethrows the first failing
stage's error to the caller unchanged — it attaches nothing, so stage
identity is not recoverable from the propagated error. -/
theorem first_failure_propagates_unchanged (env : Env) (msg : String) :
    (∀ e, (classifyIntent env msg).fst = .error e →
        (processCustomerRequest env msg).fst = .error e)
    ∧ (∀ i e, (classifyIntent env msg).fst = .ok i →
        (searchKnowledgeBase env i).fst = .error e →
        (processCustomerRequest env msg).fst = .error e)
    ∧ (∀ i c e, (classifyIntent env msg).fst = .ok i →
        (searchKnowledgeBase env i).fst = .ok c →
        (generateResponse env c).fst = .error e →
        (processCustomerRequest env msg).fst = .error e) := by
  refine ⟨?_, ?_, ?_⟩
  · intro e he
    cases htr : env.trackOk with
    | false =>
        rw [classifyIntent_trackFail env msg htr] at he
        injection he with h2
        subst h2
        simp [processCustomerRequest, htr]
    | true =>
        rcases hcl : classifyIntent env msg with ⟨res1, tr1⟩
        rw [hcl] at he
        simp only [] at he
        subst he
        simp [processCustomerRequest, htr, hcl]
  · intro i e hok hse
    have htr : env.trackOk = true := classifyIntent_ok_trackOk env msg i hok
    rcases hcl : classifyIntent env msg with ⟨res1, tr1⟩
    rw [hcl] at hok
    simp only [] at hok
    subst hok
    rcases hs : searchKnowledgeBase env i with ⟨res2, tr2⟩
    rw [hs] at hse
    simp only [] at hse
    subst hse
    simp [processCustomerRequest, htr, hcl, hs]
  · intro i c e hok hsok hge
    have htr : env.trackOk = true := classifyIntent_ok_trackOk env msg i hok
    rcases hcl : classifyIntent env msg with ⟨res1, tr1⟩
    rw [hcl] at hok
    simp only [] at hok
    subst hok
    rcases hs : searchKnowledgeBase env i with ⟨res2, tr2⟩
    rw [hs] at hsok
    simp only [] at hsok
    subst hsok
    rcases hg : generateResponse env c with ⟨res3, tr3⟩
    rw [hg] at hge
    simp only [] at hge
    subst hge
    simp [processCustomerRequest, htr, hcl, hs, hg]

/-- Witness for `first_failure_propagates_unchanged`: the classify
stage's parse-failure error reaches the caller as-is. -/
theorem first_failure_propagates_unchanged_witness :
    (classifyIntent envClassifyGarbage "hi").fst = .error .malformedModelOutput
    ∧ (processCustomerRequest envClassifyGarbage "hi").fst
        = .error .malformedModelOutput :=
  ⟨by decide,
   (first_failure_propagates_unchanged envClassifyGarbage "hi").1
     .malformedModelOutput (by decide)⟩

/-!  Claim C3. -/

/-- With the override lookup absent and reporting succeeding, the
instrumented classify stage computes the same value as the standard
one: both build the identical default prompt and messages, so the model
oracle answers identically, and the identical truthiness validation
follows. -/
theorem classifyIntent_eq_simple (env : Env) (msg : String)
    (hf : env.fetchPrompt "classifyIntent" = .absent)
    (ht : env.trackOk = true) :
    (classifyIntent env msg).fst = simpleClassifyIntent env msg := by
  rcases hl : env.llmClassify (stageMessages (classifyPrompt msg) msg) with _ | p
  · simp [classifyIntent, resolveStagePrompt, classifyCore, simpleClassifyIntent,
          hf, hl, ht]
  · cases hinv : invalidStructure p <;>
      simp [classifyIntent, resolveStagePrompt, classifyCore, simpleClassifyIntent,
            hf, hl, hinv, ht]

/-- With reporting succeeding, the instrumented retrieve stage computes
the same value as the standard one. -/
theorem searchKnowledgeBase_eq_simple (env : Env) (i : ClassifyJson)
    (ht : env.trackOk = true) :
    (searchKnowledgeBase env i).fst = simpleSearchKnowledgeBase env i := by
  rcases he : env.embedQuery i.userMessage with _ | v
  · simp [searchKnowledgeBase, simpleSearchKnowledgeBase, he, ht]
  · rcases hq : env.query v 3 with _ | ms <;>
      simp [searchKnowledgeBase, simpleSearchKnowledgeBase, he, hq, ht]

/-- With the override lookup absent and reporting succeeding, the
instrumented generate stage computes the same value as the standard
one. -/
theorem generateResponse_eq_simple (env : Env) (c : SearchResults)
    (hf : env.fetchPrompt "generateResponse" = .absent)
    (ht : env.trackOk = true) :
    (generateResponse env c).fst = simpleGenerateResponse env c := by
  rcases hl : env.llmGenerate (stageMessages (generatePrompt c) c.intent.userMessage)
      with _ | g <;>
    simp [generateResponse, resolveStagePrompt, generateCore, simpleGenerateResponse,
          hf, hl, ht]

/-- Claim C3: on identical inputs against the same deterministic
model/store stubs, with the override-prompt lookup returning absent and
the Observability Sink reporting succeeding, the instrumented pipeline
(`agent.js`) and the standard pipeline (`simpleAgent.js`) produce
identical results — the observability layer does not alter the primary
output. -/
theorem instrumented_equals_standard (env : Env) (msg : String)
    (hf : ∀ s, env.fetchPrompt s = .absent)
    (ht : env.trackOk = true) :
    (processCustomerRequest env msg).fst = simpleProcessCustomerRequest env msg := by
  have hc := classifyIntent_eq_simple env msg (hf _) ht
  rcases hcl : classifyIntent env msg with ⟨res1, tr1⟩
  rw [hcl] at hc
  simp only [] at hc
  cases res1 with
  | error e =>
      simp [processCustomerRequest, ht, hcl, simpleProcessCustomerRequest, ← hc]
  | ok i =>
      have hs2 := searchKnowledgeBase_eq_simple env i ht
      rcases hs : searchKnowledgeBase env i with ⟨res2, tr2⟩
      rw [hs] at hs2
      simp only [] at hs2
      cases res2 with
      | error e =>
          simp [processCustomerRequest, ht, hcl, hs, simpleProcessCustomerRequest,
                ← hc, ← hs2]
      | ok c =>
          have hg2 := generateResponse_eq_simple env c (hf _) ht
          rcases hg : generateResponse env c with ⟨res3, tr3⟩
          rw [hg] at hg2
          simp only [] at hg2
          cases res3 <;>
            simp [processCustomerRequest, ht, hcl, hs, hg,
                  simpleProcessCustomerRequest, ← hc, ← hs2, ← hg2]

/-- Witness for `instrumented_equals_standard` at the concrete stub
environment. -/
theorem instrumented_equals_standard_witness :
    (∀ s, envBase.fetchPrompt s = FetchResult.absent)
    ∧ envBase.trackOk = true
    ∧ (processCustomerRequest envBase "hi").fst
        = simpleProcessCustomerRequest envBase "hi" :=
  ⟨fun _ => rfl, rfl, instrumented_equals_standard envBase "hi" (fun _ => rfl) rfl⟩

end CustomerService
